import Mathlib

/-!
Verification development for the Human-vs-Bot mouse-movement classifier.

The definitions below are a shallow embedding of the Python sources
(`extract_features.py`, `predict.py`, `train_model.py`).  Numeric values are
carried in `ℚ` (the Python code works in exact integer milliseconds and pixel
coordinates; the divisions by 1000 and the variance computation are exact in
`ℚ`).  Python exceptions are modelled by `Except PyError`.

One representation choice: the source computes each per-step speed as
`sqrt(dx^2 + dy^2) / dt`, an irrational number.  The embedding carries each
speed sample by its square, `(dx^2 + dy^2) / dt^2`, which is exact in `ℚ`.
Squaring is strictly monotone on the nonnegative speeds involved, so the
sample count, the emptiness of the sample list, and which pair attains the
maximum are all preserved; no claim below references the numeric value of a
speed statistic, only the structure of the sample list and of the returned
record.  Likewise the `std_speed` field stores the population variance of the
carried samples (`np.std` would take its square root); its numeric value is
referenced by no claim.
-/

namespace HumanVsBot

/-- A trajectory point `{x, y, t}` with `t` in milliseconds
(`extract_features.py` line 23 reads the three keys). -/
structure Point where
  x : ℚ
  y : ℚ
  t : ℚ
deriving DecidableEq, Repr

/-- Outcomes of the Python exceptions arising on the embedded code paths. -/
inductive PyError where
  /-- `ValueError`, e.g. `np.max` over an empty sequence, or the sklearn
  stratified split when the least populated class has fewer than 2 members. -/
  | valueError
  /-- `FileNotFoundError` from `joblib.load` or `open`. -/
  | fileNotFoundError
  /-- any other uncaught exception. -/
  | otherError
deriving DecidableEq, Repr

/-- The speed loop of `extract_features.py` lines 26-30, running over
consecutive pairs with `prev` the previous point: emits a sample exactly when
`dt > 0`.  Each sample is carried as the squared speed
`(dx^2 + dy^2) / dt^2` (see the file header). -/
def speedsAux : Point → List Point → List ℚ
  | _, [] => []
  | prev, p :: rest =>
    let dx := p.x - prev.x
    let dy := p.y - prev.y
    let dt := (p.t - prev.t) / 1000
    if 0 < dt then (dx ^ 2 + dy ^ 2) / dt ^ 2 :: speedsAux p rest
    else speedsAux p rest

/-- The speed sample list of a trajectory (`extract_features.py` lines 26-30). -/
def speeds : List Point → List ℚ
  | [] => []
  | p :: rest => speedsAux p rest

/-- The elapsed times in seconds of the consecutive pairs, in loop order
(the `dt` of `extract_features.py` line 28). -/
def dtsAux : Point → List Point → List ℚ
  | _, [] => []
  | prev, p :: rest => (p.t - prev.t) / 1000 :: dtsAux p rest

/-- All consecutive elapsed times of a trajectory. -/
def dts : List Point → List ℚ
  | [] => []
  | p :: rest => dtsAux p rest

/-- `extract_features.py` lines 33-34: the session duration used when no hint
is supplied: `(ts[-1] - ts[0]) / 1000` when more than one timestamp exists,
else `0`. -/
def defaultSessionDuration (ts : List ℚ) : ℚ :=
  if 1 < ts.length then (ts.getLast?.getD 0 - ts.head?.getD 0) / 1000 else 0

/-- The fixed four-feature record returned by `extract_features`
(`extract_features.py` lines 36-41). -/
structure FeatureVec where
  std_speed : ℚ
  max_speed : ℚ
  num_points : ℕ
  session_duration : ℚ
deriving DecidableEq, Repr

/-- Population variance of a sample list: `np.std` squared.  Referenced by no
claim; present so the returned record carries all four source fields. -/
def popVariance (xs : List ℚ) : ℚ :=
  let n : ℚ := xs.length
  let mean := xs.sum / n
  (xs.map (fun v => (v - mean) ^ 2)).sum / n

/-- `np.max` over a sample list: raises `ValueError` on an empty sequence
(the reduction has no identity), otherwise returns the maximum. -/
def npMax : List ℚ → Except PyError ℚ
  | [] => .error .valueError
  | v :: vs => .ok (vs.foldl max v)

/-- `extract_features(data, session_duration=None)` of `extract_features.py`
lines 11-41.  When the speed sample list is empty, `np.max(speeds)` raises
`ValueError` (the `np.std` NaN computed just before it is discarded because
the dict literal never finishes evaluating), so no record is returned. -/
def extract_features (data : List Point) (session_duration : Option ℚ) :
    Except PyError FeatureVec :=
  let sp := speeds data
  let dur := match session_duration with
    | some d => d
    | none => defaultSessionDuration (data.map (fun p => p.t))
  match npMax sp with
  | .error e => .error e
  | .ok m =>
    .ok { std_speed := popVariance sp, max_speed := m,
          num_points := data.length, session_duration := dur }

/-- A session record as consumed by the dataset-building main block of
`extract_features.py` (lines 64-74): `session_id`, `type`, the optional
`metadata.session_duration`, and the movement list.  Other metadata fields
are never read. -/
structure Session where
  session_id : String
  type : String
  metadata_session_duration : Option ℚ
  movements : List Point
deriving DecidableEq, Repr

/-- One row of the feature table built by `extract_features.py` lines 64-74. -/
structure Row where
  features : FeatureVec
  label : ℕ
  session_id : String
deriving DecidableEq, Repr

/-- The per-session body of the loop in `extract_features.py` lines 65-74:
extract features with the metadata duration hint and attach
`label = 1 if session_type == 'bot' else 0` and the session id.  Exceptions
from `extract_features` propagate. -/
def build_row (s : Session) : Except PyError Row :=
  match extract_features s.movements s.metadata_session_duration with
  | .error e => .error e
  | .ok fv =>
    .ok { features := fv,
          label := if s.type = "bot" then 1 else 0,
          session_id := s.session_id }

/-- The dataset-building loop of `extract_features.py` lines 64-74: one row
per session, in input order; the first exception aborts the run. -/
def build_rows : List Session → Except PyError (List Row)
  | [] => .ok []
  | s :: rest =>
    match build_row s with
    | .error e => .error e
    | .ok row =>
      match build_rows rest with
      | .error e => .error e
      | .ok rows => .ok (row :: rows)

/-- The trained sklearn classifier as used by `predict.py`: the only
operations invoked are `predict_proba` (a pair of class probabilities for a
feature row) and `predict`.  `RandomForestClassifier.predict` is documented
to return the class with the highest mean probability estimate, ties going
to the lower class index; `SklearnModel.predict` encodes exactly that. -/
structure SklearnModel where
  predict_proba : List ℚ → ℚ × ℚ

/-- `model.predict`: the arg-max class of `predict_proba`
(1 = bot exactly when the bot probability strictly exceeds the human one). -/
def SklearnModel.predict (m : SklearnModel) (X : List ℚ) : ℕ :=
  if (m.predict_proba X).1 < (m.predict_proba X).2 then 1 else 0

/-- The ordered model-input row built in `predict.py` lines 62-63:
`[std_speed, max_speed, num_points, session_duration]`. -/
def featureX (f : FeatureVec) : List ℚ :=
  [f.std_speed, f.max_speed, (f.num_points : ℚ), f.session_duration]

/-- The document loaded from the predictor data file: `predict.py` lines
36-41 branch on the presence of a `movements` key, so the input is either a
record carrying a movement list plus an optional `metadata.session_duration`,
or a bare point list. -/
inductive PredictData where
  | record (movements : List Point) (metadata_session_duration : Option ℚ)
  | bare (points : List Point)
deriving Repr

/-- `predict.py` lines 36-41: a record input yields its movements and its
metadata duration as the hint; a bare list yields itself and no hint. -/
def resolve_input : PredictData → List Point × Option ℚ
  | .record mv md => (mv, md)
  | .bare pts => (pts, none)

/-- `predict.py` lines 43-77 after the input shape is resolved: reject fewer
than 2 movement points with a `(None, None)` return, extract features
(exceptions propagate: this part is outside any try block), then query the
model.  The required-feature check of lines 51-55 always passes because
`extract_features` returns all four keys. -/
def predict_core (model : SklearnModel) (movements : List Point)
    (session_duration : Option ℚ) : Except PyError (Option ℕ × Option ℚ) :=
  if movements.length < 2 then .ok (none, none)
  else
    match extract_features movements session_duration with
    | .error e => .error e
    | .ok f =>
      let X := featureX f
      let prediction := model.predict X
      let probability := model.predict_proba X
      let human_confidence := probability.1 * 100
      let bot_confidence := probability.2 * 100
      .ok (some prediction, some (max human_confidence bot_confidence))

/-- `predict_movement(data_file, model_file)` of `predict.py` lines 16-77.
The two loads are passed as the outcomes of `joblib.load` and
`json.load`; the source wraps each in a try block that catches only
`FileNotFoundError` and returns `(None, None)`, so any other load exception
propagates.  The outer `Except` layer is the exception channel to the
caller: `.ok` means the function returned normally. -/
def predict_movement (model_load : Except PyError SklearnModel)
    (data_load : Except PyError PredictData) :
    Except PyError (Option ℕ × Option ℚ) :=
  match model_load with
  | .error .fileNotFoundError => .ok (none, none)
  | .error e => .error e
  | .ok model =>
    match data_load with
    | .error .fileNotFoundError => .ok (none, none)
    | .error e => .error e
    | .ok data =>
      let resolved := resolve_input data
      predict_core model resolved.1 resolved.2

/-- The number of rows of a label list carrying class `c`. -/
def classCount (labels : List ℕ) (c : ℕ) : ℕ :=
  labels.countP (fun l => l = c)

/-- Modelled from the documented behaviour of sklearn
`train_test_split(..., stratify=y)` as called in `train_model.py` line 31:
stratification raises `ValueError` when the least populated class has fewer
than 2 members (too few to place one in each split).  Only the failure
condition is needed by the claims. -/
def train_test_split_check (labels : List ℕ) : Except PyError Unit :=
  if classCount labels 0 < 2 ∨ classCount labels 1 < 2 then .error .valueError
  else .ok ()

/-- The body of the try block of `train_model.py` lines 16-78: split the
table (which can raise), then fit and evaluate.  The fit/evaluate stage is
the external sklearn computation, passed as a function producing the model
and its held-out accuracy. -/
def train_model_body (rows : List Row)
    (fit : List Row → SklearnModel × ℚ) : Except PyError (SklearnModel × ℚ) :=
  match train_test_split_check (rows.map (fun r => r.label)) with
  | .error e => .error e
  | .ok _ => .ok (fit rows)

/-- `train_model()` of `train_model.py` lines 14-90: the whole body sits in
a try block whose except clauses (`KeyboardInterrupt`, `FileNotFoundError`,
and the blanket `Exception`) each print a message and return `(None, None)`;
a normal run returns `(model, accuracy)`.  No exception ever escapes. -/
def train_model (rows : List Row) (fit : List Row → SklearnModel × ℚ) :
    Option SklearnModel × Option ℚ :=
  match train_model_body rows fit with
  | .ok r => (some r.1, some r.2)
  | .error _ => (none, none)

/-- A fixed classifier used to instantiate theorems on concrete inputs:
it always reports 30% human, 70% bot. -/
def demoModel : SklearnModel :=
  { predict_proba := fun _ => (3 / 10, 7 / 10) }

/-- A fixed fit stage for instantiating the trainer on concrete inputs. -/
def demoFit : List Row → SklearnModel × ℚ :=
  fun _ => (demoModel, 1)

/-! ### Helper lemmas -/

/-- A trajectory with fewer than 2 points yields no speed samples. -/
theorem speeds_nil_of_short (data : List Point) (h : data.length < 2) :
    speeds data = [] := by
  match data with
  | [] => rfl
  | [_] => rfl
  | _ :: _ :: _ => simp at h; omega

/-- When the speed sample list is empty, `extract_features` raises
`ValueError` from `np.max` and returns no record. -/
theorem extract_features_error_of_no_samples (data : List Point)
    (hint : Option ℚ) (h : speeds data = []) :
    extract_features data hint = .error .valueError := by
  simp [extract_features, h, npMax]

/-- Inversion: a successfully returned record carries the supplied hint as
its `session_duration`. -/
theorem extract_features_ok_duration_some (data : List Point) (d : ℚ)
    (fv : FeatureVec) (h : extract_features data (some d) = .ok fv) :
    fv.session_duration = d := by
  cases hm : npMax (speeds data) with
  | error e => simp [extract_features, hm] at h
  | ok m =>
    simp only [extract_features, hm] at h
    cases h
    rfl

/-- Inversion: with no hint, a successfully returned record carries the
default timestamp-derived `session_duration`. -/
theorem extract_features_ok_duration_none (data : List Point)
    (fv : FeatureVec) (h : extract_features data none = .ok fv) :
    fv.session_duration = defaultSessionDuration (data.map (fun p => p.t)) := by
  cases hm : npMax (speeds data) with
  | error e => simp [extract_features, hm] at h
  | ok m =>
    simp only [extract_features, hm] at h
    cases h
    rfl

/-- The speed sample count equals the number of consecutive pairs with a
strictly positive elapsed time. -/
theorem speedsAux_length_eq (rest : List Point) (prev : Point) :
    (speedsAux prev rest).length =
      (dtsAux prev rest).countP (fun d => decide (0 < d)) := by
  induction rest generalizing prev with
  | nil => rfl
  | cons p rest ih =>
    simp only [speedsAux, dtsAux, List.countP_cons]
    by_cases h : 0 < (p.t - prev.t) / 1000
    · simp [h, ih]
    · simp [h, ih]

/-- There is one elapsed-time entry per consecutive pair. -/
theorem dtsAux_length (rest : List Point) (prev : Point) :
    (dtsAux prev rest).length = rest.length := by
  induction rest generalizing prev with
  | nil => rfl
  | cons p rest ih => simp [dtsAux, ih]

/-- Every elapsed time is either strictly positive or nonpositive. -/
theorem countP_pos_add_nonpos (l : List ℚ) :
    l.countP (fun d => decide (0 < d)) + l.countP (fun d => decide (d ≤ 0)) =
      l.length := by
  induction l with
  | nil => rfl
  | cons d l ih =>
    simp only [List.countP_cons]
    by_cases h : 0 < d
    · simp [h, not_le.mpr h]
      omega
    · simp [h, not_lt.mp h]
      omega

/-! ### Claim theorems -/

/-- C1 (counterexample): on a 2-point trajectory with a zero elapsed time the
extractor raises the stock `ValueError` coming from `np.max` over the empty
speed list; the code defines no `DegenerateSessionError` anywhere, so the
claim naming that exception is false as stated. -/
theorem degenerate_session_actual_outcome :
    extract_features [⟨0, 0, 0⟩, ⟨3, 4, 0⟩] none = .error .valueError := by
  norm_num [extract_features, speeds, speedsAux, npMax]

/-- C1 (amended): for every trajectory of length at least 2 whose speed
sample list is empty, `extract_features` raises `ValueError` (from `np.max`
over the empty sequence) and returns no feature record, so neither a NaN nor
a default value for `std_speed`/`max_speed` is ever emitted; the raised
exception is the numpy `ValueError`, not a dedicated `DegenerateSessionError`
(no such class exists in the code). -/
theorem degenerate_session_raises_value_error (data : List Point)
    (hint : Option ℚ) (_hlen : 2 ≤ data.length) (hsp : speeds data = []) :
    extract_features data hint = .error .valueError :=
  extract_features_error_of_no_samples data hint hsp

/-- C1 (witness): the amended theorem applied to a concrete 3-point
trajectory whose timestamps are all equal. -/
theorem degenerate_session_raises_value_error_witness :
    extract_features [⟨0, 0, 5⟩, ⟨1, 1, 5⟩, ⟨2, 2, 5⟩] none =
      .error .valueError :=
  degenerate_session_raises_value_error [⟨0, 0, 5⟩, ⟨1, 1, 5⟩, ⟨2, 2, 5⟩] none
    (by norm_num) (by norm_num [speeds, speedsAux])

/-- C2 (counterexample): on a single-point input the extractor raises the
stock `ValueError` (not an `InsufficientDataError`, which the code never
defines), and the Predictor does not fail at all: it returns `(None, None)`
normally. -/
theorem insufficient_data_actual_outcome :
    extract_features [⟨0, 0, 0⟩] none = .error .valueError ∧
    predict_movement (.ok demoModel) (.ok (.bare [⟨0, 0, 0⟩])) =
      .ok (none, none) := by
  constructor
  · norm_num [extract_features, speeds, speedsAux, npMax]
  · norm_num [predict_movement, predict_core, resolve_input]

/-- C2 (amended): for every input with fewer than 2 trajectory points,
`extract_features` raises `ValueError` (no `InsufficientDataError` exists in
the code) and `predict_movement` returns `(None, None)` without raising;
neither returns a feature vector or a prediction. -/
theorem insufficient_data_behaviour (data : List Point) (hint : Option ℚ)
    (m : SklearnModel) (d : PredictData) (hlen : data.length < 2)
    (hd : (resolve_input d).1 = data) :
    extract_features data hint = .error .valueError ∧
    predict_movement (.ok m) (.ok d) = .ok (none, none) := by
  constructor
  · exact extract_features_error_of_no_samples data hint
      (speeds_nil_of_short data hlen)
  · have hl : (resolve_input d).1.length < 2 := by rw [hd]; exact hlen
    simp [predict_movement, predict_core, hl]

/-- C2 (witness): the amended theorem applied to an empty movement list
wrapped in a session record. -/
theorem insufficient_data_behaviour_witness :
    extract_features [] (some 1) = .error .valueError ∧
    predict_movement (.ok demoModel) (.ok (.record [] (some 1))) =
      .ok (none, none) :=
  insufficient_data_behaviour [] (some 1) demoModel (.record [] (some 1))
    (by norm_num) rfl

/-- C3 (counterexample): a 3-point trajectory whose last pair is out of
order (negative delta) has 1 speed sample, while the claim formula
`n - 1 - (zero-delta pairs)` predicts 2: the source guard `dt > 0` skips
negative deltas as well as zero ones. -/
theorem negative_delta_sample_count_counterexample :
    (speeds [⟨0, 0, 0⟩, ⟨0, 0, 100⟩, ⟨0, 0, 50⟩]).length ≠
      ([⟨0, 0, 0⟩, ⟨0, 0, 100⟩, (⟨0, 0, 50⟩ : Point)].length - 1 -
        (dts [⟨0, 0, 0⟩, ⟨0, 0, 100⟩, ⟨0, 0, 50⟩]).countP
          (fun d => decide (d = 0))) := by
  norm_num [speeds, speedsAux, dts, dtsAux, List.countP_cons]

/-- C3 (amended): the extractor emits one speed sample per consecutive pair
whose elapsed time is strictly positive; hence the sample count equals
`n - 1 - (count of pairs with nonpositive delta)` — zero-delta AND
out-of-order (negative-delta) pairs are both skipped, so the claim formula
`n - 1 - (count of zero-delta pairs)` holds only when no negative delta is
present. -/
theorem speed_sample_count_formula (data : List Point) :
    (speeds data).length = (dts data).countP (fun d => decide (0 < d)) ∧
    (speeds data).length =
      data.length - 1 - (dts data).countP (fun d => decide (d ≤ 0)) := by
  match data with
  | [] => exact ⟨rfl, rfl⟩
  | p :: rest =>
    have h1 := speedsAux_length_eq rest p
    have h2 := countP_pos_add_nonpos (dtsAux p rest)
    have h3 := dtsAux_length rest p
    have h4 : (dtsAux p rest).countP (fun d => decide (0 < d)) ≤ rest.length := by
      rw [← h3]; exact List.countP_le_length _
    refine ⟨by simpa [speeds, dts] using h1, ?_⟩
    simp only [speeds, dts, List.length_cons]
    omega

/-- C4: `session_duration` in a successfully extracted record equals the
supplied hint when one is provided; with no hint it equals
`(t_last - t_first) / 1000` for trajectories of length at least 2; and for
shorter inputs the hint-absent duration computation returns 0 without
raising (the subsequent `np.max` failure is what stops such inputs, not this
computation). -/
theorem session_duration_contract (data : List Point) (d : ℚ)
    (fv fv2 : FeatureVec) :
    (extract_features data (some d) = .ok fv → fv.session_duration = d) ∧
    (2 ≤ data.length → extract_features data none = .ok fv2 →
      fv2.session_duration =
        ((data.map (fun p => p.t)).getLast?.getD 0 -
          (data.map (fun p => p.t)).head?.getD 0) / 1000) ∧
    (data.length < 2 → defaultSessionDuration (data.map (fun p => p.t)) = 0) := by
  refine ⟨fun h => extract_features_ok_duration_some data d fv h,
    fun hlen h => ?_, fun hlen => ?_⟩
  · rw [extract_features_ok_duration_none data fv2 h]
    unfold defaultSessionDuration
    rw [if_pos (by simp only [List.length_map]; omega)]
  · unfold defaultSessionDuration
    rw [if_neg (by simp only [List.length_map]; omega)]

/-- C4 (witness): the hint branch of the contract applied to a concrete
2-point trajectory with hint 5. -/
theorem session_duration_contract_witness :
    FeatureVec.session_duration ⟨0, 2500, 2, 5⟩ = 5 :=
  (session_duration_contract [⟨0, 0, 0⟩, ⟨3, 4, 100⟩] 5 ⟨0, 2500, 2, 5⟩
      ⟨0, 2500, 2, 1/10⟩).1
    (by norm_num [extract_features, speeds, speedsAux, defaultSessionDuration,
      popVariance, npMax])

/-- C5: for every successful prediction, the returned label is the arg-max
class over the two class probabilities the model reports for the extracted
feature row (tie to class 0, as sklearn documents), and the returned
confidence is the larger probability as a percentage, which lies in
`[50, 100]` whenever the two probabilities are nonnegative and sum to 1. -/
theorem prediction_argmax_confidence (m : SklearnModel) (d : PredictData)
    (fv : FeatureVec) (p : ℚ × ℚ)
    (hlen : 2 ≤ (resolve_input d).1.length)
    (hex : extract_features (resolve_input d).1 (resolve_input d).2 = .ok fv)
    (hp : m.predict_proba (featureX fv) = p)
    (hsum : p.1 + p.2 = 1) (h0 : 0 ≤ p.1) (h1 : 0 ≤ p.2) :
    predict_movement (.ok m) (.ok d) =
      .ok (some (if p.1 < p.2 then 1 else 0),
           some (max (p.1 * 100) (p.2 * 100))) ∧
    50 ≤ max (p.1 * 100) (p.2 * 100) ∧ max (p.1 * 100) (p.2 * 100) ≤ 100 := by
  have hnl : ¬ (resolve_input d).1.length < 2 := by omega
  refine ⟨?_, ?_, ?_⟩
  · simp only [predict_movement, predict_core, hnl, if_false, hex]
    simp [SklearnModel.predict, hp]
  · rcases le_or_lt (1 / 2 : ℚ) p.1 with hc | hc
    · exact le_max_of_le_left (by linarith)
    · exact le_max_of_le_right (by linarith)
  · exact max_le (by linarith) (by linarith)

/-- C5 (witness): the theorem applied to the constant 30/70 classifier on a
concrete 2-point trajectory. -/
theorem prediction_argmax_confidence_witness :
    50 ≤ max ((3 / 10 : ℚ) * 100) ((7 / 10 : ℚ) * 100) ∧
    max ((3 / 10 : ℚ) * 100) ((7 / 10 : ℚ) * 100) ≤ 100 :=
  ⟨(prediction_argmax_confidence demoModel (.bare [⟨0, 0, 0⟩, ⟨3, 4, 100⟩])
      ⟨0, 2500, 2, 1/10⟩ (3 / 10, 7 / 10) (by norm_num [resolve_input])
      (by norm_num [resolve_input, extract_features, speeds, speedsAux,
        defaultSessionDuration, popVariance, npMax]) rfl (by norm_num)
      (by norm_num) (by norm_num)).2.1,
   (prediction_argmax_confidence demoModel (.bare [⟨0, 0, 0⟩, ⟨3, 4, 100⟩])
      ⟨0, 2500, 2, 1/10⟩ (3 / 10, 7 / 10) (by norm_num [resolve_input])
      (by norm_num [resolve_input, extract_features, speeds, speedsAux,
        defaultSessionDuration, popVariance, npMax]) rfl (by norm_num)
      (by norm_num) (by norm_num)).2.2⟩

/-- C6 (counterexample): a session whose `type` is neither `bot` nor `human`
is not rejected: the builder assigns it label 0 and succeeds, so an unknown
`type` is not a fatal schema error as claimed. -/
theorem unknown_type_label_zero :
    build_rows [⟨"s1", "alien", none, [⟨0, 0, 0⟩, ⟨3, 4, 100⟩]⟩] =
      .ok [⟨⟨0, 2500, 2, 1/10⟩, 0, "s1"⟩] := by
  norm_num [build_rows, build_row, extract_features, speeds, speedsAux,
    defaultSessionDuration, popVariance, npMax]
  decide

/-- C6 (amended): the row label is derived solely from the session `type`,
with `bot` mapped to 1 and every other string (including but not limited to
`human`) mapped to 0; an unrecognised `type` never makes the builder fail —
replacing the `type` of a successfully built session by any string still
succeeds, with the label recomputed by the same rule. -/
theorem label_from_type_only (s : Session) (row : Row) (t2 : String)
    (h : build_row s = .ok row) :
    (row.label = 1 ↔ s.type = "bot") ∧
    build_row { s with type := t2 } =
      .ok { row with label := if t2 = "bot" then 1 else 0 } := by
  cases hex : extract_features s.movements s.metadata_session_duration with
  | error e => simp [build_row, hex] at h
  | ok fv =>
    simp only [build_row, hex] at h
    cases h
    constructor
    · by_cases hb : s.type = "bot" <;> simp [hb]
    · simp [build_row, hex]

/-- C6 (witness): the amended theorem applied to a concrete session,
retyping it to the unknown string `zzz`. -/
theorem label_from_type_only_witness :
    build_row ⟨"s2", "zzz", none, [⟨0, 0, 0⟩, ⟨3, 4, 100⟩]⟩ =
      .ok ⟨⟨0, 2500, 2, 1/10⟩, 0, "s2"⟩ := by
  have h := (label_from_type_only
      ⟨"s2", "human", none, [⟨0, 0, 0⟩, ⟨3, 4, 100⟩]⟩
      ⟨⟨0, 2500, 2, 1/10⟩, 0, "s2"⟩ "zzz"
      (by norm_num [build_row, extract_features, speeds, speedsAux,
        defaultSessionDuration, popVariance, npMax]
          ; decide)).2
  simpa using h

/-- C7 (counterexample): on a table whose bot class has a single example,
training does not fail with any error: the split raises the stock sklearn
`ValueError`, the blanket except clause catches it, and `train_model`
returns `(None, None)` normally — nothing surfaces to the caller, and no
`InsufficientSamplesError` or `SchemaError` exists in the code. -/
theorem train_error_swallowed :
    train_model [⟨⟨0, 2500, 2, 1⟩, 1, "a"⟩, ⟨⟨0, 2500, 2, 1⟩, 0, "b"⟩,
        ⟨⟨0, 2500, 2, 1⟩, 0, "c"⟩] demoFit = (none, none) := by
  norm_num [train_model, train_model_body, train_test_split_check, classCount,
    List.countP_cons]

/-- C7 (amended): when either class has fewer than 2 examples the stratified
split raises `ValueError`, which the blanket except clause of `train_model`
catches; the function then returns `(None, None)` instead of surfacing any
error, and the named `InsufficientSamplesError`/`SchemaError` classes do not
exist in the code. -/
theorem stratification_failure_swallowed (rows : List Row)
    (fit : List Row → SklearnModel × ℚ)
    (h : classCount (rows.map (fun r => r.label)) 0 < 2 ∨
         classCount (rows.map (fun r => r.label)) 1 < 2) :
    train_model rows fit = (none, none) := by
  unfold train_model train_model_body train_test_split_check
  rw [if_pos h]

/-- C7 (witness): the amended theorem applied to a table whose human class
has a single example. -/
theorem stratification_failure_swallowed_witness :
    train_model [⟨⟨0, 2500, 2, 1⟩, 1, "a"⟩, ⟨⟨0, 2500, 2, 1⟩, 1, "b"⟩,
        ⟨⟨0, 2500, 2, 1⟩, 0, "c"⟩] demoFit = (none, none) :=
  stratification_failure_swallowed _ demoFit
    (Or.inl (by norm_num [classCount, List.countP_cons]))

/-- C9: the Predictor branches on the shape of its input document — a full
session record is unwrapped to its movement list with
`metadata.session_duration` as the duration hint, while a bare point list is
used as-is with no hint, in which case a successful extraction derives
`session_duration` from the trajectory timestamps as
`(t_last - t_first) / 1000`. -/
theorem predictor_input_branching (m : SklearnModel) (mv pts : List Point)
    (md : Option ℚ) (fv : FeatureVec) :
    predict_movement (.ok m) (.ok (.record mv md)) = predict_core m mv md ∧
    predict_movement (.ok m) (.ok (.bare pts)) = predict_core m pts none ∧
    (2 ≤ pts.length → extract_features pts none = .ok fv →
      fv.session_duration =
        ((pts.map (fun p => p.t)).getLast?.getD 0 -
          (pts.map (fun p => p.t)).head?.getD 0) / 1000) := by
  refine ⟨rfl, rfl, fun hlen h => ?_⟩
  rw [extract_features_ok_duration_none pts fv h]
  unfold defaultSessionDuration
  rw [if_pos (by simp only [List.length_map]; omega)]

/-- C9 (witness): the bare-list branch applied to a concrete 2-point
trajectory with timestamps 0 and 100 milliseconds. -/
theorem predictor_input_branching_witness :
    FeatureVec.session_duration ⟨0, 2500, 2, 1/10⟩ = (100 - 0) / 1000 :=
  (predictor_input_branching demoModel [] [⟨0, 0, 0⟩, ⟨3, 4, 100⟩] none
      ⟨0, 2500, 2, 1/10⟩).2.2 (by norm_num)
    (by norm_num [extract_features, speeds, speedsAux, defaultSessionDuration,
      popVariance, npMax])

/-- C10: each of the three public failure modes of `predict_movement` — a
missing model file, a missing data file, and a trajectory with fewer than 2
points — returns the pair `(None, None)` normally (the outer `.ok` is the
no-exception channel), so a batch driver checking the first component for
`None` can continue past a bad record. -/
theorem predict_failure_modes_return_none (m : SklearnModel)
    (dl : Except PyError PredictData) (d : PredictData)
    (hlen : (resolve_input d).1.length < 2) :
    predict_movement (.error .fileNotFoundError) dl = .ok (none, none) ∧
    predict_movement (.ok m) (.error .fileNotFoundError) = .ok (none, none) ∧
    predict_movement (.ok m) (.ok d) = .ok (none, none) := by
  refine ⟨rfl, rfl, ?_⟩
  simp [predict_movement, predict_core, hlen]

/-- C10 (witness): the three failure modes at concrete inputs. -/
theorem predict_failure_modes_return_none_witness :
    predict_movement (.error .fileNotFoundError) (.ok (.bare [])) =
      .ok (none, none) ∧
    predict_movement (.ok demoModel) (.error .fileNotFoundError) =
      .ok (none, none) ∧
    predict_movement (.ok demoModel) (.ok (.bare [⟨1, 2, 3⟩])) =
      .ok (none, none) :=
  predict_failure_modes_return_none demoModel (.ok (.bare [])) (.bare [⟨1, 2, 3⟩])
    (by norm_num [resolve_input])

end HumanVsBot
